import Mathlib

/-!
Shallow embedding of the stock-analysis LINE bot (`analyze-app.py`).

Numeric values are modelled as rationals (`ℚ`): the Python code computes with
floats, but every claim under verification is about exact arithmetic
relationships (window means, EWMA recurrences, threshold comparisons), none of
which hinge on float rounding.  A pandas `Series` over a `DataFrame` of `n`
rows is modelled as a function of the row position (`Nat → ℚ`) or as a
`List ℚ`; in this total model no cell is NaN, so `dropna` keeps every row —
the claims about missing data are stated by taking the cleaned series itself
as the function input.
-/

namespace StockBot

/-- One OHLC bar.  Only `High`, `Low`, `Close` are read by `analyze_stock`
(the `Open` column is never used on this code path), so the model carries
those three fields. -/
structure Bar where
  high : ℚ
  low : ℚ
  close : ℚ
deriving DecidableEq, Repr

/-! ## Rolling windows (pandas `rolling(window=w, min_periods=1)`)

At row `i`, pandas aggregates over the trailing window of the last
`min (i+1) w` values, i.e. positions `i+1-w … i` (clamped at 0). -/

/-- The trailing window of width `w` ending at row `i`:
positions `max 0 (i+1-w) … i` of `xs`. -/
def window (w : Nat) (xs : List ℚ) (i : Nat) : List ℚ :=
  (xs.take (i + 1)).drop (i + 1 - w)

/-- Arithmetic mean of a list (`0` on the empty list, which the rolling
aggregations never produce for a valid row index). -/
def mean (l : List ℚ) : ℚ := l.sum / (l.length : ℚ)

/-- Minimum of a list, `0` on the empty list. -/
def listMin (l : List ℚ) : ℚ :=
  match l with
  | [] => 0
  | x :: xs => xs.foldl min x

/-- Maximum of a list, `0` on the empty list. -/
def listMax (l : List ℚ) : ℚ :=
  match l with
  | [] => 0
  | x :: xs => xs.foldl max x

/-- `series.rolling(window=w, min_periods=1).mean()` at row `i`. -/
def rollMean (w : Nat) (xs : List ℚ) (i : Nat) : ℚ := mean (window w xs i)

/-- `series.rolling(window=w, min_periods=1).min()` at row `i`. -/
def rollMin (w : Nat) (xs : List ℚ) (i : Nat) : ℚ := listMin (window w xs i)

/-- `series.rolling(window=w, min_periods=1).max()` at row `i`. -/
def rollMax (w : Nat) (xs : List ℚ) (i : Nat) : ℚ := listMax (window w xs i)

/-! ## Stochastic oscillator (`calculate_kd_safe`) -/

def lows (df : List Bar) : List ℚ := df.map Bar.low
def highs (df : List Bar) : List ℚ := df.map Bar.high
def closes (df : List Bar) : List ℚ := df.map Bar.close

/-- `low_min = df['Low'].rolling(window=n, min_periods=1).min()` at row `i`. -/
def lowMin (n : Nat) (df : List Bar) (i : Nat) : ℚ := rollMin n (lows df) i

/-- `high_max = df['High'].rolling(window=n, min_periods=1).max()` at row `i`. -/
def highMax (n : Nat) (df : List Bar) (i : Nat) : ℚ := rollMax n (highs df) i

/-- `rsv = ((Close - low_min) / denom * 100).where(denom > 0, 50).fillna(50)`
at row `i`, with `denom = high_max - low_min`.  In the rational model no value
is NaN, so the `.fillna(50)` branch (which replaces any otherwise-undefined
entry by 50) has nothing left to replace; the `.where` keeps the quotient
exactly when `denom > 0` and yields 50 otherwise. -/
def rsv (n : Nat) (df : List Bar) (i : Nat) : ℚ :=
  if 0 < highMax n df i - lowMin n df i then
    ((closes df).getD i 0 - lowMin n df i) / (highMax n df i - lowMin n df i) * 100
  else 50

/-- `series.ewm(com=c, adjust=False).mean()`: the non-adjusted recursive EWMA
with smoothing factor `α = 1/(1+c)`; the first value seeds the average
exactly. -/
def ewmAlpha (c : ℚ) : ℚ := 1 / (1 + c)

/-- The non-adjusted EWMA sequence of `x` with center-of-mass `c`. -/
def ewm (c : ℚ) (x : Nat → ℚ) : Nat → ℚ
  | 0 => x 0
  | i + 1 => (1 - ewmAlpha c) * ewm c x i + ewmAlpha c * x (i + 1)

/-- `K = rsv.ewm(com=2, adjust=False).mean()` (window `n = 9` in
`calculate_kd_safe`). -/
def kSeq (df : List Bar) : Nat → ℚ := ewm 2 (rsv 9 df)

/-- `D = K.ewm(com=2, adjust=False).mean()`. -/
def dSeq (df : List Bar) : Nat → ℚ := ewm 2 (kSeq df)

/-! ## Signal decision engine (`analyze_stock`, lines 161–173) -/

def BUY_ADVICE : String := "建議: BUY ✅"
def SELL_ADVICE : String := "建議: SELL ❌"
def HOLD_ADVICE : String := "建議: HOLD ⏸"

/-- `buy_signal = (last_close >= resistance * 0.995) or (ma5 > ma20 and last_k > last_d)` -/
def buySignal (close ma5 ma20 k d resistance : ℚ) : Prop :=
  close ≥ resistance * 0.995 ∨ (ma5 > ma20 ∧ k > d)

/-- `sell_signal = (last_close <= support * 1.005) or (ma5 < ma20 and last_k < last_d)` -/
def sellSignal (close ma5 ma20 k d support : ℚ) : Prop :=
  close ≤ support * 1.005 ∨ (ma5 < ma20 ∧ k < d)

instance (close ma5 ma20 k d resistance : ℚ) :
    Decidable (buySignal close ma5 ma20 k d resistance) := by
  unfold buySignal; infer_instance

instance (close ma5 ma20 k d support : ℚ) :
    Decidable (sellSignal close ma5 ma20 k d support) := by
  unfold sellSignal; infer_instance

/-- The advice/expected-return resolution of `analyze_stock`:
`if buy_signal and not sell_signal: BUY …; elif sell_signal and not buy_signal:
SELL …; else: HOLD, 0.0`.  For BUY the target is `resistance * 1.02`. -/
def signalDecision (close ma5 ma20 k d support resistance : ℚ) : String × ℚ :=
  if buySignal close ma5 ma20 k d resistance ∧
      ¬ sellSignal close ma5 ma20 k d support then
    (BUY_ADVICE, (resistance * 1.02 - close) / close * 100)
  else if sellSignal close ma5 ma20 k d support ∧
      ¬ buySignal close ma5 ma20 k d resistance then
    (SELL_ADVICE, (close - support) / close * 100)
  else
    (HOLD_ADVICE, 0)

/-- C1: mutually exclusive priority: buy-only → BUY with its target return,
sell-only → SELL with its return, both-or-neither → HOLD with 0. -/
theorem signalDecision_cases (close ma5 ma20 k d support resistance : ℚ) :
    (buySignal close ma5 ma20 k d resistance ∧
        ¬ sellSignal close ma5 ma20 k d support →
      signalDecision close ma5 ma20 k d support resistance =
        (BUY_ADVICE, (resistance * 1.02 - close) / close * 100)) ∧
    (sellSignal close ma5 ma20 k d support ∧
        ¬ buySignal close ma5 ma20 k d resistance →
      signalDecision close ma5 ma20 k d support resistance =
        (SELL_ADVICE, (close - support) / close * 100)) ∧
    ((buySignal close ma5 ma20 k d resistance ↔
        sellSignal close ma5 ma20 k d support) →
      signalDecision close ma5 ma20 k d support resistance =
        (HOLD_ADVICE, 0)) := by
  unfold signalDecision
  refine ⟨fun h => ?_, fun h => ?_, fun h => ?_⟩
  · rw [if_pos h]
  · rw [if_neg (fun hb => h.2 hb.1), if_pos h]
  · rw [if_neg (fun hb => hb.2 (h.mp hb.1)),
      if_neg (fun hs => hs.2 (h.mpr hs.1))]

/-- Witness for C1 at a concrete buy-only input: close 100 against
resistance 100 with a bullish MA/KD cross and no sell trigger. -/
theorem signalDecision_cases_witness :
    signalDecision 100 2 1 2 1 1 100 =
      (BUY_ADVICE, ((100 : ℚ) * 1.02 - 100) / 100 * 100) :=
  (signalDecision_cases 100 2 1 2 1 1 100).1
    ⟨by norm_num [buySignal], by norm_num [sellSignal]⟩

/-- C10: a BUY triggered by `close ≥ resistance * 0.995` while
`close > resistance * 1.02` reports a negative expected return. -/
theorem buy_with_negative_expected_return
    (close ma5 ma20 k d support resistance : ℚ)
    (hpos : 0 < close)
    (hbuy : close ≥ resistance * 0.995)
    (hover : close > resistance * 1.02)
    (hnosell : ¬ sellSignal close ma5 ma20 k d support) :
    signalDecision close ma5 ma20 k d support resistance =
      (BUY_ADVICE, (resistance * 1.02 - close) / close * 100) ∧
    (resistance * 1.02 - close) / close * 100 < 0 := by
  refine ⟨(signalDecision_cases close ma5 ma20 k d support resistance).1
    ⟨Or.inl hbuy, hnosell⟩, ?_⟩
  have h1 : resistance * 1.02 - close < 0 := by linarith
  have h2 : (resistance * 1.02 - close) / close < 0 := div_neg_of_neg_of_pos h1 hpos
  linarith

/-- Witness for C10: close 103 above the 102 target of resistance 100,
flat MAs and K/D so the sell signal stays off; the reported return is
negative. -/
theorem buy_with_negative_expected_return_witness :
    signalDecision 103 1 1 1 1 1 100 =
      (BUY_ADVICE, ((100 : ℚ) * 1.02 - 103) / 103 * 100) ∧
    ((100 : ℚ) * 1.02 - 103) / 103 * 100 < 0 :=
  buy_with_negative_expected_return 103 1 1 1 1 1 100
    (by norm_num) (by norm_num) (by norm_num) (by norm_num [sellSignal])

/-! ## Support/resistance and the analysis core (`analyze_stock`, lines 124–191)

The Python code works on a pandas frame; here the frame after download and
`_ensure_single_ticker_df` is a `List Bar`.  In the rational model every cell
is a value (no NaN), so `df.dropna(subset=['Close','MA5','MA20','K','D'])`
keeps every row and the cleaned frame equals the input frame; claims about
the cleaned series take it as the function input. -/

/-- Round to the nearest integer, ties to even — the tie rule of Python's
`round` (the sub-half-cent noise of the binary floats is outside the
rational model). -/
def roundHalfEven (q : ℚ) : ℤ :=
  if q - ⌊q⌋ < 1 / 2 then ⌊q⌋
  else if 1 / 2 < q - ⌊q⌋ then ⌊q⌋ + 1
  else if ⌊q⌋ % 2 = 0 then ⌊q⌋ else ⌊q⌋ + 1

/-- Python `round(x, 2)`. -/
def round2 (q : ℚ) : ℚ := (roundHalfEven (q * 100) : ℚ) / 100

/-- `pandas.Series.median()`: the middle element of the sorted values, or the
mean of the two middle elements for an even count (0 stands in for the NaN
of an empty series, which the call sites never produce). -/
def median (l : List ℚ) : ℚ :=
  if l.length = 0 then 0
  else
    (fun s =>
      if l.length % 2 = 1 then s.getD (l.length / 2) 0
      else (s.getD (l.length / 2 - 1) 0 + s.getD (l.length / 2) 0) / 2)
    (List.insertionSort (· ≤ ·) l)

/-- Python `f"{q:.1f}"` on a nonnegative value (K/D); for a negative value
the sign is emitted before the rounded magnitude (Python's `-0.0` edge case
is not modelled — no claim touches it). -/
def fmt1 (q : ℚ) : String :=
  (if q < 0 then "-" else "") ++
    toString ((roundHalfEven (|q| * 10)).natAbs / 10) ++ "." ++
    toString ((roundHalfEven (|q| * 10)).natAbs % 10)

/-- Python `f"{q:.2f}"`, same caveats as `fmt1`. -/
def fmt2 (q : ℚ) : String :=
  (if q < 0 then "-" else "") ++
    toString ((roundHalfEven (|q| * 100)).natAbs / 100) ++ "." ++
    (if (roundHalfEven (|q| * 100)).natAbs % 100 < 10 then "0" else "") ++
    toString ((roundHalfEven (|q| * 100)).natAbs % 100)

def HINT_DAILY : String := "資料筆數不足，建議開盤後重試"
def HINT_INTRADAY : String := "開盤資料數<3筆數不足，建議稍後重試"

/-- The insufficient-data return string of `analyze_stock` (line 132–133):
`f"{stock_code} 資料不足，無法分析（有效列數 {len(df_clean)}，{note})"` with
`note` chosen by `data_source == "5d 1d"`. -/
def insufficientMsg (stockCode dataSource : String) (rows : Nat) : String :=
  stockCode ++ " 資料不足，無法分析（有效列數 " ++ toString rows ++ "，" ++
    (if dataSource = "5d 1d" then HINT_DAILY else HINT_INTRADAY) ++ ")"

/-- The values `analyze_stock` derives for a sufficient series, before the
final f-string rendering. -/
structure Report where
  lastClose : ℚ
  ma5 : ℚ
  ma20 : ℚ
  k : ℚ
  d : ℚ
  support : ℚ
  resistance : ℚ
  maSignal : String
  kdSignal : String
  advice : String
  expectedReturn : ℚ
  note : String

/-- Outcome of the analysis core: the early insufficient-data return
(carrying the row count and the rendered notice) or a full report. -/
inductive AnalyzeOutcome where
  | insufficient (rows : Nat) (msg : String)
  | report (r : Report)

/-- `analyze_stock` from line 124 on, after a successful download: indicator
columns, the `len(df_clean) < 3` guard, support/resistance as the rounded
medians of the recent `min 5 len` lows/highs, the MA/KD signal strings and
the decision. -/
def analyzeCore (stockCode dataSource : String) (df : List Bar) : AnalyzeOutcome :=
  if df.length < 3 then
    .insufficient df.length (insufficientMsg stockCode dataSource df.length)
  else
    let i := df.length - 1
    let lastClose := (closes df).getD i 0
    let ma5 := rollMean 5 (closes df) i
    let ma20 := rollMean 20 (closes df) i
    let lastK := kSeq df i
    let lastD := dSeq df i
    let recentN := min 5 df.length
    let support := round2 (median ((lows df).drop (df.length - recentN)))
    let resistance := round2 (median ((highs df).drop (df.length - recentN)))
    let maSignal := if ma5 > ma20 then "短期均線突破長期均線，趨勢轉強"
      else "短期均線在長期均線下方，趨勢偏弱"
    let kdSignal :=
      if lastK > lastD then
        "黃金交叉，偏多 (K=" ++ fmt1 lastK ++ ", D=" ++ fmt1 lastD ++ ")" ++
          (if lastK > 80 then "（K值超買，短期可能回檔）" else "")
      else if lastK < lastD then
        "死亡交叉，偏空 (K=" ++ fmt1 lastK ++ ", D=" ++ fmt1 lastD ++ ")"
      else "持平 (K=" ++ fmt1 lastK ++ ", D=" ++ fmt1 lastD ++ ")"
    let dec := signalDecision lastClose ma5 ma20 lastK lastD support resistance
    let note := if dataSource = "1d 5m" then "目前是以 " ++ dataSource ++ " 當沖條件"
      else "開盤資料數<3或目前非盤中，故沒有資料，將以 " ++ dataSource ++
        " 使用近 5 日日線資料進行分析"
    .report {
      lastClose := lastClose, ma5 := ma5, ma20 := ma20, k := lastK, d := lastD,
      support := support, resistance := resistance,
      maSignal := maSignal, kdSignal := kdSignal,
      advice := dec.1, expectedReturn := dec.2, note := note }

/-- The final f-string of `analyze_stock` (lines 178–187), and the
insufficient-data notice for the early return. -/
def renderOutcome (stockCode : String) (o : AnalyzeOutcome) : String :=
  match o with
  | .insufficient _ msg => msg
  | .report r =>
    "📊 " ++ stockCode ++ "\n" ++
    "收盤價: " ++ fmt2 r.lastClose ++ "\n" ++
    "支撐: " ++ fmt2 r.support ++ ", 壓力: " ++ fmt2 r.resistance ++ "\n" ++
    "預期報酬率: " ++ fmt2 r.expectedReturn ++ "%\n" ++
    "MA 判斷: " ++ r.maSignal ++ "\n" ++
    "KD 判斷: " ++ r.kdSignal ++ "\n" ++
    r.advice ++ "\n" ++
    "備註: " ++ r.note

/-! ## Rolling-mean characterisation (C4) -/

/-- Structure of `rolling(window=w, min_periods=1).mean()` at a valid row:
the window has exactly `min (i+1) w` samples, the value is their sum divided
by that count, and with fewer samples than the window it is the mean of all
samples seen so far. -/
lemma rollMean_eq (w : Nat) (xs : List ℚ) (i : Nat) (h : i < xs.length) :
    (window w xs i).length = min (i + 1) w ∧
    rollMean w xs i = (window w xs i).sum / ((min (i + 1) w : ℕ) : ℚ) ∧
    (i + 1 ≤ w → rollMean w xs i = (xs.take (i + 1)).sum / ((i + 1 : ℕ) : ℚ)) := by
  have hlen : (window w xs i).length = min (i + 1) w := by
    simp only [window, List.length_drop, List.length_take]
    omega
  refine ⟨hlen, ?_, ?_⟩
  · rw [rollMean, mean, hlen]
  · intro hw
    have hz : i + 1 - w = 0 := by omega
    have hwin : window w xs i = xs.take (i + 1) := by
      rw [window, hz, List.drop_zero]
    have hlen' : (xs.take (i + 1)).length = i + 1 := by
      rw [List.length_take]; omega
    rw [rollMean, mean, hwin, hlen']

/-- C4: `MA5` and `MA20` (`df['Close'].rolling(window=w, min_periods=1).mean()`
for `w = 5, 20`) at each position equal the arithmetic mean of the trailing
`min (i+1) w` close values; with fewer samples than the window they equal the
mean of all closes seen so far, so no row (including row 1) is undefined. -/
theorem ma_trailing_mean (df : List Bar) (i : Nat) (h : i < df.length) :
    ((window 5 (closes df) i).length = min (i + 1) 5 ∧
      rollMean 5 (closes df) i =
        (window 5 (closes df) i).sum / ((min (i + 1) 5 : ℕ) : ℚ) ∧
      (i + 1 ≤ 5 → rollMean 5 (closes df) i =
        ((closes df).take (i + 1)).sum / ((i + 1 : ℕ) : ℚ))) ∧
    ((window 20 (closes df) i).length = min (i + 1) 20 ∧
      rollMean 20 (closes df) i =
        (window 20 (closes df) i).sum / ((min (i + 1) 20 : ℕ) : ℚ) ∧
      (i + 1 ≤ 20 → rollMean 20 (closes df) i =
        ((closes df).take (i + 1)).sum / ((i + 1 : ℕ) : ℚ))) := by
  have h' : i < (closes df).length := by simpa [closes] using h
  exact ⟨rollMean_eq 5 (closes df) i h', rollMean_eq 20 (closes df) i h'⟩

/-- Witness for C4 at a concrete two-bar series, second row. -/
theorem ma_trailing_mean_witness :
    ((window 5 (closes [⟨2, 1, 1⟩, ⟨4, 3, 3⟩]) 1).length = min 2 5 ∧
      rollMean 5 (closes [⟨2, 1, 1⟩, ⟨4, 3, 3⟩]) 1 =
        (window 5 (closes [⟨2, 1, 1⟩, ⟨4, 3, 3⟩]) 1).sum / ((min 2 5 : ℕ) : ℚ) ∧
      (1 + 1 ≤ 5 → rollMean 5 (closes [⟨2, 1, 1⟩, ⟨4, 3, 3⟩]) 1 =
        ((closes [⟨2, 1, 1⟩, ⟨4, 3, 3⟩]).take 2).sum / ((2 : ℕ) : ℚ))) ∧
    ((window 20 (closes [⟨2, 1, 1⟩, ⟨4, 3, 3⟩]) 1).length = min 2 20 ∧
      rollMean 20 (closes [⟨2, 1, 1⟩, ⟨4, 3, 3⟩]) 1 =
        (window 20 (closes [⟨2, 1, 1⟩, ⟨4, 3, 3⟩]) 1).sum / ((min 2 20 : ℕ) : ℚ) ∧
      (1 + 1 ≤ 20 → rollMean 20 (closes [⟨2, 1, 1⟩, ⟨4, 3, 3⟩]) 1 =
        ((closes [⟨2, 1, 1⟩, ⟨4, 3, 3⟩]).take 2).sum / ((2 : ℕ) : ℚ))) :=
  ma_trailing_mean [⟨2, 1, 1⟩, ⟨4, 3, 3⟩] 1 (by decide)

/-! ## EWMA boundedness (C3) -/

/-- The non-adjusted EWMA with center-of-mass 2 of a sequence bounded on
`[lo, hi]` up to index `i` stays in `[lo, hi]`. -/
lemma ewm2_bounded (x : Nat → ℚ) (lo hi : ℚ) (i : Nat)
    (h : ∀ j, j ≤ i → lo ≤ x j ∧ x j ≤ hi) :
    lo ≤ ewm 2 x i ∧ ewm 2 x i ≤ hi := by
  induction i with
  | zero => exact h 0 le_rfl
  | succ n ih =>
    have hy := ih (fun j hj => h j (Nat.le_succ_of_le hj))
    have hx := h (n + 1) le_rfl
    have hα : ewmAlpha 2 = 1 / 3 := by norm_num [ewmAlpha]
    simp only [ewm, hα]
    constructor <;> linarith [hy.1, hy.2, hx.1, hx.2]

/-- C3: whenever every `rsv` value of the series lies in `[0, 100]`, so does
every `K` and every `D` value (non-adjusted recursive EWMA, com = 2, first
value seeding the average exactly). -/
theorem kd_in_unit_range (df : List Bar) (i : Nat) (hi : i < df.length)
    (h : ∀ j, j < df.length → 0 ≤ rsv 9 df j ∧ rsv 9 df j ≤ 100) :
    (0 ≤ kSeq df i ∧ kSeq df i ≤ 100) ∧
    (0 ≤ dSeq df i ∧ dSeq df i ≤ 100) := by
  have hk : ∀ j, j ≤ i → 0 ≤ kSeq df j ∧ kSeq df j ≤ 100 := fun j hj =>
    ewm2_bounded (rsv 9 df) 0 100 j
      (fun m hm => h m (lt_of_le_of_lt (hm.trans hj) hi))
  exact ⟨hk i le_rfl, ewm2_bounded (kSeq df) 0 100 i hk⟩

/-- Witness for C3 at a concrete one-bar series. -/
theorem kd_in_unit_range_witness :
    (0 ≤ kSeq [⟨2, 1, 1⟩] 0 ∧ kSeq [⟨2, 1, 1⟩] 0 ≤ 100) ∧
    (0 ≤ dSeq [⟨2, 1, 1⟩] 0 ∧ dSeq [⟨2, 1, 1⟩] 0 ≤ 100) :=
  kd_in_unit_range [⟨2, 1, 1⟩] 0 (by decide)
    (by
      intro j hj
      simp only [List.length_cons, List.length_nil] at hj
      interval_cases j
      constructor <;>
        norm_num [rsv, highMax, lowMin, rollMax, rollMin, window,
          listMin, listMax, lows, highs, closes, min_def, max_def])

/-! ## Flat-range rsv (C2) -/

/-- C2 (amended): at any row where the trailing-9 rolling range
`high_max - low_min` is zero, `rsv` is the neutral value 50 — the `.where`
guard fires, so no division by zero reaches `K` or `D`.  (The original
claim's parenthetical — that this covers every series with `high == low`
on each bar — fails: the rolling window spans up to 9 bars, so a per-bar
flat series whose price moves across bars still has a nonzero range; see
the counterexample below.) -/
theorem rsv_flat_range_50 (df : List Bar) (i : Nat)
    (h : highMax 9 df i - lowMin 9 df i = 0) :
    rsv 9 df i = 50 := by
  have hneg : ¬ (0 < highMax 9 df i - lowMin 9 df i) := by
    rw [h]; exact lt_irrefl 0
  rw [rsv, if_neg hneg]

/-- Witness for C2 at a concrete genuinely-flat series. -/
theorem rsv_flat_range_50_witness :
    highMax 9 [⟨1, 1, 1⟩] 0 - lowMin 9 [⟨1, 1, 1⟩] 0 = 0 ∧
    rsv 9 [⟨1, 1, 1⟩] 0 = 50 :=
  ⟨by
    norm_num [highMax, lowMin, rollMax, rollMin, window,
      listMin, listMax, lows, highs],
   rsv_flat_range_50 [⟨1, 1, 1⟩] 0
    (by
      norm_num [highMax, lowMin, rollMax, rollMin, window,
        listMin, listMax, lows, highs])⟩

/-- Counterexample to C2 as stated: a series whose every bar has
`high == low` (each bar a no-trade tick) but whose price moves across bars;
at row 1 the rolling range is 1, not 0, and `rsv = 100 ≠ 50`. -/
theorem rsv_high_eq_low_counterexample :
    (∀ b ∈ ([⟨1, 1, 1⟩, ⟨2, 2, 2⟩] : List Bar), b.high = b.low) ∧
    rsv 9 [⟨1, 1, 1⟩, ⟨2, 2, 2⟩] 1 = 100 ∧
    rsv 9 [⟨1, 1, 1⟩, ⟨2, 2, 2⟩] 1 ≠ 50 := by
  have h100 : rsv 9 [⟨1, 1, 1⟩, ⟨2, 2, 2⟩] 1 = 100 := by
    norm_num [rsv, highMax, lowMin, rollMax, rollMin, window,
      listMin, listMax, lows, highs, closes, min_def, max_def]
  refine ⟨?_, h100, by rw [h100]; norm_num⟩
  intro b hb
  rcases List.mem_cons.mp hb with h | h
  · subst h; rfl
  · rcases List.mem_cons.mp h with h | h
    · subst h; rfl
    · exact absurd h (List.not_mem_nil b)

/-! ## Support/resistance (C5) and the insufficient-data path (C9) -/

/-- C5: with at least 3 cleaned rows the analysis reports support and
resistance equal to the medians of the `low`/`high` values of the most
recent `min 5 L` cleaned bars, each rounded to 2 decimal places. -/
theorem support_resistance_median (sc ds : String) (df : List Bar)
    (h : 3 ≤ df.length) :
    ∃ r, analyzeCore sc ds df = .report r ∧
      r.support = round2 (median ((lows df).drop (df.length - min 5 df.length))) ∧
      r.resistance =
        round2 (median ((highs df).drop (df.length - min 5 df.length))) := by
  unfold analyzeCore
  rw [if_neg (by omega)]
  exact ⟨_, rfl, rfl, rfl⟩

/-- Witness for C5 at a concrete three-bar series. -/
theorem support_resistance_median_witness :
    ∃ r, analyzeCore "2330.TW" "5d 1d" [⟨2, 1, 1⟩, ⟨4, 3, 3⟩, ⟨6, 5, 5⟩] =
        .report r ∧
      r.support = round2 (median ((lows [⟨2, 1, 1⟩, ⟨4, 3, 3⟩, ⟨6, 5, 5⟩]).drop
        (([⟨2, 1, 1⟩, ⟨4, 3, 3⟩, ⟨6, 5, 5⟩] : List Bar).length -
          min 5 ([⟨2, 1, 1⟩, ⟨4, 3, 3⟩, ⟨6, 5, 5⟩] : List Bar).length))) ∧
      r.resistance = round2 (median ((highs [⟨2, 1, 1⟩, ⟨4, 3, 3⟩, ⟨6, 5, 5⟩]).drop
        (([⟨2, 1, 1⟩, ⟨4, 3, 3⟩, ⟨6, 5, 5⟩] : List Bar).length -
          min 5 ([⟨2, 1, 1⟩, ⟨4, 3, 3⟩, ⟨6, 5, 5⟩] : List Bar).length))) :=
  support_resistance_median "2330.TW" "5d 1d"
    [⟨2, 1, 1⟩, ⟨4, 3, 3⟩, ⟨6, 5, 5⟩] (by simp)

/-- C9: with fewer than 3 cleaned rows the analysis returns the textual
insufficient-data notice — which contains the actual row count and the
granularity-dependent hint — and never a report (and, being a total
function, never an exception). -/
theorem insufficient_data_notice (sc ds : String) (df : List Bar)
    (h : df.length < 3) :
    analyzeCore sc ds df =
      .insufficient df.length (insufficientMsg sc ds df.length) ∧
    (toString df.length).data <:+: (insufficientMsg sc ds df.length).data ∧
    (ds = "5d 1d" →
      HINT_DAILY.data <:+: (insufficientMsg sc ds df.length).data) ∧
    (ds ≠ "5d 1d" →
      HINT_INTRADAY.data <:+: (insufficientMsg sc ds df.length).data) ∧
    ∀ r, analyzeCore sc ds df ≠ .report r := by
  have heq : analyzeCore sc ds df =
      .insufficient df.length (insufficientMsg sc ds df.length) := by
    unfold analyzeCore
    rw [if_pos h]
  refine ⟨heq, ?_, ?_, ?_, ?_⟩
  · have hd : (insufficientMsg sc ds df.length).data =
        (sc.data ++ " 資料不足，無法分析（有效列數 ".data) ++
          (toString df.length).data ++
          ("，".data ++
            (if ds = "5d 1d" then HINT_DAILY else HINT_INTRADAY).data ++
            ")".data) := by
      simp [insufficientMsg, String.data_append]
    rw [hd]
    exact List.infix_append _ _ _
  · intro hds
    have hd : (insufficientMsg sc ds df.length).data =
        (sc.data ++ " 資料不足，無法分析（有效列數 ".data ++
          (toString df.length).data ++ "，".data) ++
          HINT_DAILY.data ++ ")".data := by
      simp [insufficientMsg, String.data_append, hds]
    rw [hd]
    exact List.infix_append _ _ _
  · intro hds
    have hd : (insufficientMsg sc ds df.length).data =
        (sc.data ++ " 資料不足，無法分析（有效列數 ".data ++
          (toString df.length).data ++ "，".data) ++
          HINT_INTRADAY.data ++ ")".data := by
      simp [insufficientMsg, String.data_append, hds]
    rw [hd]
    exact List.infix_append _ _ _
  · intro r hr
    rw [heq] at hr
    exact AnalyzeOutcome.noConfusion hr

/-- Witness for C9: the empty cleaned series on the daily path. -/
theorem insufficient_data_notice_witness :
    analyzeCore "2330.TW" "5d 1d" [] =
      .insufficient ([] : List Bar).length
        (insufficientMsg "2330.TW" "5d 1d" ([] : List Bar).length) ∧
    (toString ([] : List Bar).length).data <:+:
      (insufficientMsg "2330.TW" "5d 1d" ([] : List Bar).length).data ∧
    ("5d 1d" = "5d 1d" →
      HINT_DAILY.data <:+:
        (insufficientMsg "2330.TW" "5d 1d" ([] : List Bar).length).data) ∧
    ("5d 1d" ≠ "5d 1d" →
      HINT_INTRADAY.data <:+:
        (insufficientMsg "2330.TW" "5d 1d" ([] : List Bar).length).data) ∧
    ∀ r, analyzeCore "2330.TW" "5d 1d" [] ≠ .report r :=
  insufficient_data_notice "2330.TW" "5d 1d" [] (by decide)

/-! ## Symbol normalizer (`is_stock_code`, `handle_message` lines 210–211) -/

/-- Python's regex class `\d` matches any Unicode decimal digit (category
Nd), not only ASCII `0-9`.  The model covers the ASCII digits together with
the fullwidth digits U+FF10–U+FF19, one representative non-ASCII Nd block;
the remaining Nd blocks behave the same way and are omitted. -/
def reDigit (c : Char) : Bool :=
  c.isDigit || (0xFF10 ≤ c.toNat && c.toNat ≤ 0xFF19)

/-- Python `str.strip()`: drop whitespace from both ends.  (Python also
strips the exotic Unicode spaces; no claim exercises them.) -/
def trimChars (cs : List Char) : List Char :=
  ((cs.dropWhile Char.isWhitespace).reverse.dropWhile Char.isWhitespace).reverse

/-- The anchored regex `^\d{4}(\.(TW|TWO))?$` on an already-stripped
character sequence.  (The `$`-before-trailing-newline quirk of Python
regexes cannot fire here: stripping has removed any trailing newline.) -/
def isStockCodeCore (cs : List Char) : Bool :=
  (cs.take 4).length == 4 && (cs.take 4).all reDigit &&
    (cs.drop 4 == [] || cs.drop 4 == ['.', 'T', 'W'] ||
      cs.drop 4 == ['.', 'T', 'W', 'O'])

/-- `is_stock_code(text)`: `bool(re.match(r"^\d{4}(\.(TW|TWO))?$", text.strip()))`. -/
def is_stock_code (text : String) : Bool := isStockCodeCore (trimChars text.data)

/-- The token shape `is_stock_code` recognises: four decimal digits,
optionally followed by a dot and one of the two market suffixes. -/
def StockCodePattern (cs : List Char) : Prop :=
  ∃ ds suf, cs = ds ++ suf ∧ ds.length = 4 ∧ (∀ c ∈ ds, reDigit c = true) ∧
    (suf = [] ∨ suf = ['.', 'T', 'W'] ∨ suf = ['.', 'T', 'W', 'O'])

/-- `handle_message` line 210: `c.strip() + '.TW' if '.' not in c.strip()
else c.strip()` (the same normalization reappears at the top of
`analyze_stock`). -/
def normalizeCode (c : String) : String :=
  if (trimChars c.data).contains '.' then String.mk (trimChars c.data)
  else String.mk (trimChars c.data) ++ ".TW"

lemma isStockCodeCore_iff (cs : List Char) :
    isStockCodeCore cs = true ↔ StockCodePattern cs := by
  constructor
  · intro h
    simp only [isStockCodeCore, Bool.and_eq_true, Bool.or_eq_true, beq_iff_eq,
      List.all_eq_true] at h
    exact ⟨cs.take 4, cs.drop 4, (List.take_append_drop 4 cs).symm,
      h.1.1, h.1.2, or_assoc.mp h.2⟩
  · rintro ⟨ds, suf, rfl, hlen, hdig, hsuf⟩
    have htake : (ds ++ suf).take 4 = ds := List.take_left' hlen
    have hdrop : (ds ++ suf).drop 4 = suf := List.drop_left' hlen
    simp only [isStockCodeCore, Bool.and_eq_true, Bool.or_eq_true, beq_iff_eq,
      List.all_eq_true, htake, hdrop]
    exact ⟨⟨hlen, hdig⟩, or_assoc.mpr hsuf⟩

/-- C6 (amended): `"2330"` normalizes to `"2330.TW"`, `"2330.TWO"` is left
unchanged, `"abc"` is rejected, and `is_stock_code` accepts a token iff its
stripped form is 4 decimal digits (Python `\d`, i.e. Unicode decimal digits,
not only ASCII) optionally followed by `.TW` or `.TWO`. -/
theorem symbol_normalization :
    normalizeCode "2330" = "2330.TW" ∧
    normalizeCode "2330.TWO" = "2330.TWO" ∧
    is_stock_code "abc" = false ∧
    (∀ s : String, is_stock_code s = true ↔ StockCodePattern (trimChars s.data)) :=
  ⟨by decide, by decide, by decide,
   fun s => isStockCodeCore_iff (trimChars s.data)⟩

/-- Witness for C6's pattern characterisation at the concrete token `"2330"`. -/
theorem symbol_normalization_witness :
    StockCodePattern (trimChars "2330".data) :=
  (symbol_normalization.2.2.2 "2330").mp (by decide)

/-- Counterexample to C6 as stated: Python's `\d` is not restricted to
ASCII, so the fullwidth-digit token `"２３３０"` (U+FF12 U+FF13 U+FF13
U+FF10) is accepted by `is_stock_code` although none of its characters is
an ASCII digit. -/
theorem is_stock_code_unicode_counterexample :
    is_stock_code "２３３０" = true ∧
    (trimChars "２３３０".data).length = 4 ∧
    ∀ c ∈ trimChars "２３３０".data, ¬ c.isDigit := by
  decide

/-! ## Multi-ticker collapse (`_ensure_single_ticker_df`) -/

/-- Python substring containment `a in b`. -/
def strIn (a b : String) : Bool := decide (a.data <:+: b.data)

/-- A provider frame: either plain single-ticker columns, or columns
pivoted by ticker (a `MultiIndex` whose level-1 values are `tickers`, with
`cols t` the single-ticker slice `df.xs(t, axis=1, level=1)`).  An empty
`tickers` list also models the `except` branch that falls back to
`tickers = []`. -/
inductive YFrame (α : Type) where
  | flat (d : α)
  | pivoted (tickers : List String) (cols : String → α)

/-- `_ensure_single_ticker_df(df, code)`: on a pivoted frame, exact match
first, then the first ticker containing or contained in the code, then the
first ticker as last resort, otherwise the frame is returned unchanged. -/
def ensureSingleTickerDF {α : Type} (df : YFrame α) (code : String) : YFrame α :=
  match df with
  | .flat d => .flat d
  | .pivoted tickers cols =>
    if code ∈ tickers then .flat (cols code)
    else
      match tickers.find? (fun t => code == t || strIn code t || strIn t code) with
      | some t => .flat (cols t)
      | none =>
        match tickers with
        | [] => .pivoted [] cols
        | t0 :: _ => .flat (cols t0)

/-- When the exact-match tier failed, the loop's `code == t` disjunct is
dead: its scan equals a scan for containment alone. -/
lemma find_drop_eq (code : String) (tickers : List String)
    (h : code ∉ tickers) :
    tickers.find? (fun t => code == t || strIn code t || strIn t code) =
    tickers.find? (fun t => strIn code t || strIn t code) := by
  induction tickers with
  | nil => rfl
  | cons t ts ih =>
    have hne : (code == t) = false :=
      beq_eq_false_iff_ne.mpr (fun e => h (e ▸ List.mem_cons_self t ts))
    have hih := ih (fun hm => h (List.mem_cons_of_mem t hm))
    cases hq : (strIn code t || strIn t code) with
    | true => simp [List.find?_cons, hne, hq]
    | false => simp [List.find?_cons, hne, hq, hih]

/-- C7: the three collapse tiers, in order, and the unchanged cases. -/
theorem ensure_single_ticker_tiers {α : Type} (code : String)
    (tickers : List String) (cols : String → α) :
    (∀ d : α, ensureSingleTickerDF (.flat d) code = .flat d) ∧
    (code ∈ tickers →
      ensureSingleTickerDF (.pivoted tickers cols) code = .flat (cols code)) ∧
    (code ∉ tickers → ∀ t,
      tickers.find? (fun t => strIn code t || strIn t code) = some t →
      ensureSingleTickerDF (.pivoted tickers cols) code = .flat (cols t)) ∧
    (code ∉ tickers →
      tickers.find? (fun t => strIn code t || strIn t code) = none →
      ∀ t0 rest, tickers = t0 :: rest →
      ensureSingleTickerDF (.pivoted tickers cols) code = .flat (cols t0)) ∧
    (tickers = [] →
      ensureSingleTickerDF (.pivoted tickers cols) code = .pivoted [] cols) := by
  refine ⟨fun d => rfl, fun h => ?_, fun h t hf => ?_, fun h hf t0 rest he => ?_,
    fun he => ?_⟩
  · show (if code ∈ tickers then YFrame.flat (cols code) else _) = _
    rw [if_pos h]
  · show (if code ∈ tickers then YFrame.flat (cols code) else _) = _
    rw [if_neg h, find_drop_eq code tickers h, hf]
  · subst he
    show (if code ∈ t0 :: rest then YFrame.flat (cols code) else _) = _
    rw [if_neg h, find_drop_eq code _ h, hf]
  · subst he
    rfl

/-- Witness for C7's exact-match tier on a concrete pivoted frame. -/
theorem ensure_single_ticker_tiers_witness :
    ensureSingleTickerDF
        (.pivoted ["2330.TW", "0050.TW"] (fun t => t)) "2330.TW" =
      .flat "2330.TW" :=
  (ensure_single_ticker_tiers "2330.TW" ["2330.TW", "0050.TW"]
    (fun t => t)).2.1 (by decide)

/-! ## Reply assembly and truncation (`handle_message` lines 229–231) -/

def TRUNCATION_MARK : String := "\n\n(結果過長，已截斷)"

/-- Lines 230–231: `if len(reply_text) > 4900: reply_text =
reply_text[:4900] + "\n\n(結果過長，已截斷)"`.  Python slices and measures by
code point, as `String.length`/`data.take` do. -/
def truncateReply (r : String) : String :=
  if r.length > 4900 then String.mk (r.data.take 4900) ++ TRUNCATION_MARK else r

/-- Line 229: `reply_text = "\n\n".join(results)`, then the truncation. -/
def assembleReply (results : List String) : String :=
  truncateReply (String.intercalate "\n\n" results)

lemma string_length_data (s : String) : s.length = s.data.length := rfl

lemma string_length_append (a b : String) :
    (a ++ b).length = a.length + b.length := by
  rw [string_length_data, string_length_data, string_length_data,
    String.data_append, List.length_append]

/-- C8 (amended): a combined reply longer than 4900 characters is cut to
its first 4900 characters plus the 12-character truncation marker — final
length exactly 4912, the bound never exceeded being 4912 = 4900 + 12, not
4900 — and a reply of at most 4900 characters is sent unchanged. -/
theorem reply_truncation (r : String) :
    (r.length ≤ 4900 → truncateReply r = r) ∧
    (4900 < r.length →
      truncateReply r = String.mk (r.data.take 4900) ++ TRUNCATION_MARK ∧
      (truncateReply r).length = 4912) ∧
    (truncateReply r).length ≤ max r.length 4912 := by
  have hmark : TRUNCATION_MARK.length = 12 := by decide
  refine ⟨fun h => ?_, fun h => ?_, ?_⟩
  · rw [truncateReply, if_neg (by omega)]
  · have heq : truncateReply r = String.mk (r.data.take 4900) ++ TRUNCATION_MARK := by
      rw [truncateReply, if_pos (by omega)]
    have hlen : (truncateReply r).length = 4912 := by
      rw [heq, string_length_append, hmark, string_length_data]
      have : (String.mk (r.data.take 4900)).data = r.data.take 4900 := rfl
      rw [this, List.length_take]
      have hr : r.data.length = r.length := (string_length_data r).symm
      omega
    exact ⟨heq, hlen⟩
  · rcases le_or_lt r.length 4900 with h | h
    · rw [truncateReply, if_neg (by omega)]
      omega
    · have : (truncateReply r).length = 4912 := by
        have heq : truncateReply r = String.mk (r.data.take 4900) ++ TRUNCATION_MARK := by
          rw [truncateReply, if_pos (by omega)]
        rw [heq, string_length_append, hmark, string_length_data]
        have hd : (String.mk (r.data.take 4900)).data = r.data.take 4900 := rfl
        rw [hd, List.length_take]
        have hr : r.data.length = r.length := (string_length_data r).symm
        omega
      omega

/-- Witness for C8 on a concrete short reply. -/
theorem reply_truncation_witness :
    truncateReply "2330.TW 資料不足" = "2330.TW 資料不足" :=
  (reply_truncation "2330.TW 資料不足").1 (by decide)

/-- Counterexample to C8 as stated: a 4901-character reply is truncated to
4900 characters plus the marker, so the final reply is 4912 characters —
past the 4900-character bound the claim asserts is never exceeded. -/
theorem reply_truncation_counterexample :
    (String.mk (List.replicate 4901 'a')).length = 4901 ∧
    (truncateReply (String.mk (List.replicate 4901 'a'))).length = 4912 ∧
    4900 < 4912 := by
  have h1 : (String.mk (List.replicate 4901 'a')).length = 4901 := by
    rw [string_length_data]
    exact List.length_replicate 4901 'a'
  refine ⟨h1, ?_, by norm_num⟩
  rw [truncateReply, if_pos (by omega)]
  rw [string_length_append, show TRUNCATION_MARK.length = 12 by decide,
    string_length_data]
  have hd : (String.mk ((String.mk (List.replicate 4901 'a')).data.take 4900)).data =
      (List.replicate 4901 'a').take 4900 := rfl
  rw [hd, List.length_take, List.length_replicate]
  omega

end StockBot
